import Mathlib

/-!
Shallow embedding of `rtmaster/iothub` (packages `eventhub` and `iotdevice`,
file `src/eventhub/client.go`) and proofs about the spec's claims.

Go errors are modelled as `String` values (every error in this file is built
with `errors.New` / `fmt.Errorf`).  External collaborators (the AMQP
transport's link/send/receive primitives, the `transport.Transport`
interface, JSON encoding) are modelled as explicit parameters carrying the
outcome the collaborator produced, so each embedded function is a pure
function of the client state plus those outcomes.  Go's `select` over several
ready channels picks one enabled branch nondeterministically; we model that
by passing the scheduler's pick as an explicit argument constrained to be an
enabled branch.
-/

namespace IotHub

/-- Dynamically typed AMQP values (`interface{}` in Go), restricted to the
shapes the client inspects: `int32` status codes, strings, string lists
(`partition_ids`), maps, and a catch-all for every other dynamic type
(whose only role is to make a Go type assertion fail). -/
inductive AVal where
  | vint32 (n : Int)
  | vstr (s : String)
  | vstrList (l : List String)
  | vmap (m : List (String × AVal))
  | vother

/-- Lookup `m[k]` on a Go `map[string]interface{}`: `none` models both an absent key
and a `nil` value for the purpose of a type assertion (both fail it). -/
def lookupProp (m : List (String × AVal)) (k : String) : Option AVal :=
  (m.find? (fun p => p.1 = k)).map Prod.snd

/-- AMQP message properties (`amqp.MessageProperties`). `correlationID` is an
`interface{}` in Go, hence an optional dynamic value here. -/
structure MsgProps where
  messageID : String
  correlationID : Option AVal
  toAddr : String
  replyTo : String

/-- An AMQP message (`amqp.Message`): dynamic value payload, properties and
application properties. -/
structure Message where
  value : Option AVal
  props : MsgProps
  appProps : List (String × AVal)

/-- Go's `fmt` `%q` verb as the client applies it to the
`status-description` application property: a string is quoted, everything
else (including an absent value, Go `nil`) is rendered by its kind.  Escaping
inside the string is not modelled (no claim exercises it). -/
def quoteDescription : Option AVal → String
  | some (AVal.vstr s) => "\"" ++ s ++ "\""
  | some (AVal.vint32 n) => toString n
  | some (AVal.vstrList _) => "list"
  | some (AVal.vmap _) => "map"
  | some AVal.vother => "value"
  | none => "%!q(<nil>)"

/-- Embedding of `CheckMessageResponse` (src/eventhub/client.go:245-255): type-assert the
`status-code` application property to `int32`; `200` is success, anything
else yields an error carrying the broker's code and description. -/
def CheckMessageResponse (msg : Message) : Except String Unit :=
  match lookupProp msg.appProps "status-code" with
  | some (AVal.vint32 rc) =>
    if rc = 200 then Except.ok ()
    else Except.error ("code = " ++ toString rc ++ ", description = " ++
      quoteDescription (lookupProp msg.appProps "status-description"))
  | _ => Except.error "unable to typecast status-code"

/-- Predicate: `s` contains `sub` as a substring. -/
def ContainsStr (s sub : String) : Prop :=
  ∃ pre post, s = pre ++ sub ++ post

/-- Go interface equality `msg.Properties.CorrelationID == msgID` for a
string `msgID`: true iff the dynamic value is a string equal to it. -/
def corrEq (c : Option AVal) (msgID : String) : Bool :=
  match c with
  | some (AVal.vstr s) => s = msgID
  | _ => false

/-- Outcome of the external link/send primitives used by a management or CBS
request/response exchange: each field records what the collaborator
returned. -/
structure LinkWorld where
  recvLinkErr : Option String
  sendLinkErr : Option String
  sendErr : Option String
  recvResult : Except String Message

/-- The management request sent by `getPartitionIDs`
(src/eventhub/client.go:206-217): carries the generated message id (the
correlation identifier the response must echo) and the reply address. -/
def mgmtRequest (msgID replyTo name : String) : Message :=
  { value := none
    props := { messageID := msgID, correlationID := none, toAddr := "", replyTo := replyTo }
    appProps := [("operation", AVal.vstr "READ"), ("name", AVal.vstr name),
      ("type", AVal.vstr "com.microsoft:eventhub")] }

/-- Embedding of `getPartitionIDs` (src/eventhub/client.go:186-242): open the management
links, send the correlated request, receive one response, validate its
status code, check that it echoes the generated message id, and type-assert
the payload down to the partition-identifier list.  `msgID` and `replyTo`
stand for the two generated UUIDs. -/
def getPartitionIDs (w : LinkWorld) (msgID : String) : Except String (List String) :=
  match w.recvLinkErr with
  | some e => Except.error e
  | none =>
  match w.sendLinkErr with
  | some e => Except.error e
  | none =>
  match w.sendErr with
  | some e => Except.error e
  | none =>
  match w.recvResult with
  | Except.error e => Except.error e
  | Except.ok msg =>
    match CheckMessageResponse msg with
    | Except.error e => Except.error e
    | Except.ok _ =>
    if ¬ corrEq msg.props.correlationID msgID then
      Except.error "message-id mismatch"
    else
      match msg.value with
      | some (AVal.vmap val) =>
        match lookupProp val "partition_ids" with
        | some (AVal.vstrList ids) => Except.ok ids
        | _ => Except.error "unable to typecast partition_ids"
      | _ => Except.error "unable to typecast value"

/-- The CBS token-put request sent by `PutToken`
(src/eventhub/client.go:142-156). -/
def cbsRequest (msgID audience token : String) : Message :=
  { value := some (AVal.vstr token)
    props := { messageID := msgID, correlationID := none, toAddr := "$cbs", replyTo := "cbs" }
    appProps := [("operation", AVal.vstr "put-token"),
      ("type", AVal.vstr "servicebus.windows.net:sastoken"),
      ("name", AVal.vstr audience)] }

/-- Embedding of `PutToken` (src/eventhub/client.go:127-167): open the CBS sender and
receiver, send the token message, receive the response and validate its
status code with `CheckMessageResponse`; on success accept the response. -/
def PutToken (w : LinkWorld) : Except String Unit :=
  match w.sendLinkErr with
  | some e => Except.error e
  | none =>
  match w.recvLinkErr with
  | some e => Except.error e
  | none =>
  match w.sendErr with
  | some e => Except.error e
  | none =>
  match w.recvResult with
  | Except.error e => Except.error e
  | Except.ok msg =>
    match CheckMessageResponse msg with
    | Except.error e => Except.error e
    | Except.ok _ => Except.ok ()

/-- One iteration trigger of the background renewal loop of
`PutTokenContinuously` (src/eventhub/client.go:111-123): either the hourly
timer fires and the renewal `PutToken` produces the recorded outcome, or the
stop channel fires. -/
inductive RenewEvent where
  | tick (result : Option String)
  | stop
  deriving DecidableEq, Repr

/-- The background renewal loop of `PutTokenContinuously`: on each timer tick
it repeats the handshake; a failure is logged and terminates the loop; the
stop signal terminates it silently.  The returned list is everything the
loop wrote to the log. -/
def renewLoop : List RenewEvent → List String
  | [] => []
  | RenewEvent.stop :: _ => []
  | RenewEvent.tick none :: rest => renewLoop rest
  | RenewEvent.tick (some e) :: _ => ["put token error: " ++ e]

/-- Embedding of `PutTokenContinuously` (src/eventhub/client.go:102-125): perform the
handshake once in blocking mode; on failure return that error without
starting the loop, on success start the background loop and return `nil`.
The Boolean records whether the background loop was launched. -/
def PutTokenContinuously (first : Except String Unit) : Except String Unit × Bool :=
  match first with
  | Except.error e => (Except.error e, false)
  | Except.ok _ => (Except.ok (), true)

/-- A delivered event-stream message, identified by its payload. -/
structure Msg where
  payload : String
  deriving DecidableEq, Repr

/-- The source address of the receiver opened for one partition by
`SubscribePartitions` (src/eventhub/client.go:64-65). -/
def partitionAddress (name group id : String) : String :=
  "/" ++ name ++ "/ConsumerGroups/" ++ group ++ "/Partitions/" ++ id

/-- The link selector filter installed on every partition receiver
(src/eventhub/client.go:68-70): `amqp.annotation.x-opt-enqueuedtimeutc >
startMs`, where `startMs` is the call's start time in milliseconds
(`time.Now().UnixNano() / int64(time.Millisecond)`).  A message with broker
enqueue time `enqMs` passes the filter iff this is `true`. -/
def enqueuedTimeFilter (startMs enqMs : Int) : Bool :=
  startMs < enqMs

/-- Configuration of one partition receiver opened by `SubscribePartitions`:
its source address and the start timestamp baked into its selector filter. -/
structure ReceiverConfig where
  address : String
  filterStartMs : Int
  deriving DecidableEq, Repr

/-- The receivers `SubscribePartitions` opens: one per discovered partition
identifier, all carrying the same call-start-time filter. -/
def mkReceivers (name group : String) (ids : List String) (startMs : Int) :
    List ReceiverConfig :=
  ids.map (fun id => ⟨partitionAddress name group id, startMs⟩)

/-- One hand-off observed by the orchestrating select loop of
`SubscribePartitions` (src/eventhub/client.go:90-97): either a message from
the shared message channel or an error from the shared error channel.  The
list order of these events is the order in which the loop's select resolves
them. -/
inductive FanEvent where
  | msg (m : Msg)
  | err (e : String)
  deriving DecidableEq, Repr

/-- The orchestrating loop of `SubscribePartitions`: dispatch each message to
the callback and keep consuming; on an error return it.  `none` models the
loop still blocking (no error ever read); otherwise the result is the
returned error paired with the messages dispatched before it. -/
def fanInLoop : List FanEvent → Option (String × List Msg)
  | [] => none
  | FanEvent.msg m :: rest =>
    match fanInLoop rest with
    | some (e, ds) => some (e, m :: ds)
    | none => none
  | FanEvent.err e :: _ => some (e, [])

/-- The messages among a list of fan-in events. -/
def msgsOf : List FanEvent → List Msg
  | [] => []
  | FanEvent.msg m :: rest => m :: msgsOf rest
  | FanEvent.err _ :: rest => msgsOf rest

/-- Result of a `SubscribePartitions` call that returned: the error it
returned, the messages dispatched to the callback before returning, and
whether the shared cancellation scope was cancelled on the way out. -/
structure FanResult where
  retErr : String
  delivered : List Msg
  cancelled : Bool
  deriving DecidableEq, Repr

/-- Embedding of `SubscribePartitions` (src/eventhub/client.go:51-98) after receiver
setup: on a discovery error return it at once (the cancellation scope does
not exist yet); with no partitions the select loop blocks forever (`none`);
otherwise run the loop over the observed hand-offs, and on return the
deferred `cancel()` fires. -/
def SubscribePartitions (disc : Except String (List String))
    (events : List FanEvent) : Option FanResult :=
  match disc with
  | Except.error e => some ⟨e, [], false⟩
  | Except.ok ids =>
    if ids.isEmpty then none
    else (fanInLoop events).map (fun p => ⟨p.1, p.2, true⟩)

/-- One partition's receive loop body (src/eventhub/client.go:76-87) over
what the transport delivers next: it accepts and forwards each message until
the transport errs, then pushes that error to the error channel and exits.
The result is the messages forwarded and the error pushed (`none` while the
loop is still blocked in `Receive`). -/
def receiverRun : List (Except String Msg) → List Msg × Option String
  | [] => ([], none)
  | Except.ok m :: rest =>
    let r := receiverRun rest
    (m :: r.1, r.2)
  | Except.error e :: _ => ([], some e)

/-- One partition's receive loop, given whether the shared cancellation
scope fired before it next called `Receive`: once cancelled, `Receive(ctx)`
fails immediately, so the loop pushes that single error to the error channel
and exits without forwarding any message. -/
def receiverLoop (cancelled : Bool) (stream : List (Except String Msg)) :
    List Msg × Option String :=
  if cancelled then ([], some "context canceled") else receiverRun stream

/-- State of the `eventhub.Client` (src/eventhub/client.go:34-39): whether
the `done` channel has been closed. -/
structure EhState where
  done : Bool
  deriving DecidableEq, Repr

/-- Teardown side effects of one `eventhub.Client.Close` call. -/
structure EhCloseEffects where
  sessClosed : Bool
  connClosed : Bool
  deriving DecidableEq, Repr

/-- No eventhub teardown happened. -/
def ehNoEffects : EhCloseEffects := ⟨false, false⟩

/-- Embedding of `eventhub.Client.Close` (src/eventhub/client.go:170-183): under the
mutex, return `nil` at once when `done` is already closed; otherwise close
`done`, close the session (propagating its error and skipping the connection
close on failure), then close the connection.  `sessErr`/`connErr` are the
outcomes of the two external close calls. -/
def ehClose (s : EhState) (sessErr connErr : Option String) :
    Option String × EhState × EhCloseEffects :=
  if s.done then (none, s, ehNoEffects)
  else
    match sessErr with
    | some e => (some e, ⟨true⟩, ⟨true, false⟩)
    | none => (connErr, ⟨true⟩, ⟨true, true⟩)

/-! ### iotdevice client (second half of src/eventhub/client.go) -/

/-- The error `ErrClosed` (src/eventhub/client.go:421). -/
def errClosed : String := "closed"

/-- Result of `ctx.Err()` after cancellation. -/
def ctxCanceled : String := "context canceled"

/-- Lifecycle state of the `iotdevice.Client`: whether the `ready` channel
and the `done` channel have been closed. -/
structure DevState where
  ready : Bool
  done : Bool
  deriving DecidableEq, Repr

/-- The state of a freshly constructed client (`New`): neither channel is
closed. -/
def devInit : DevState := ⟨false, false⟩

/-- The three branches of the `select` in `checkConnection`
(src/eventhub/client.go:423-432). -/
inductive Branch where
  | ready
  | done
  | ctxDone
  deriving DecidableEq, Repr

/-- A branch of `checkConnection`'s `select` is enabled when its channel
would not block: a closed `ready`/`done` channel, or a cancelled context. -/
def branchEnabled (s : DevState) (ctxCancelled : Bool) : Branch → Bool
  | Branch.ready => s.ready
  | Branch.done => s.done
  | Branch.ctxDone => ctxCancelled

/-- Embedding of `checkConnection` (src/eventhub/client.go:423-432): the `select` resolves
one enabled branch — proceed on `ready`, fail with `ErrClosed` on `done`,
fail with the context's error on `ctx.Done()`.  Go picks among several
enabled branches nondeterministically; `pick` is that choice.  `none` means
the picked branch is not enabled, i.e. this outcome cannot happen. -/
def checkConnection (s : DevState) (ctxCancelled : Bool) (pick : Branch) :
    Option (Except String Unit) :=
  if branchEnabled s ctxCancelled pick then
    some (match pick with
      | Branch.ready => Except.ok ()
      | Branch.done => Except.error errClosed
      | Branch.ctxDone => Except.error ctxCanceled)
  else none

/-- Embedding of `Connect` (src/eventhub/client.go:403-418): under the mutex, fail with
`already connected` when the `ready` channel is already closed; otherwise run
the transport connect (`trErr` is its outcome) and close `ready` exactly when
it succeeded.  Returns the call's error and the state after the call. -/
def connect (s : DevState) (trErr : Option String) : Option String × DevState :=
  if s.ready then (some "already connected", s)
  else
    match trErr with
    | none => (none, { s with ready := true })
    | some e => (some e, s)

/-- Teardown side effects of one `iotdevice.Client.Close` call
(src/eventhub/client.go:613-625): the events multiplexer and the twin-state
multiplexer broadcast `ErrClosed`, and the transport is closed. -/
structure DevCloseEffects where
  evMuxClosedWith : Option String
  tsMuxClosedWith : Option String
  trClosed : Bool
  deriving DecidableEq, Repr

/-- No iotdevice teardown happened. -/
def devNoEffects : DevCloseEffects := ⟨none, none, false⟩

/-- The teardown the first `Close` performs. -/
def devTeardownEffects : DevCloseEffects := ⟨some errClosed, some errClosed, true⟩

/-- Embedding of `iotdevice.Client.Close` (src/eventhub/client.go:613-625): under the
mutex, return `nil` at once when `done` is already closed; otherwise close
`done`, broadcast `ErrClosed` to the events and twin-state multiplexers,
and close the transport (`trErr` is that call's outcome, which `Close`
returns). -/
def devClose (s : DevState) (trErr : Option String) :
    Option String × DevState × DevCloseEffects :=
  if s.done then (none, s, devNoEffects)
  else (trErr, { s with done := true }, devTeardownEffects)

/-- A sequence of `iotdevice.Client.Close` calls threaded through the state:
returns each call's (result, effects) pair and the final state.  The list
element `trErr` is the transport-close outcome available to that call. -/
def devCloseSeq (s : DevState) : List (Option String) →
    List (Option String × DevCloseEffects) × DevState
  | [] => ([], s)
  | trErr :: rest =>
    let r := devClose s trErr
    let rs := devCloseSeq r.2.1 rest
    ((r.1, r.2.2) :: rs.1, rs.2)

/-- A sequence of `eventhub.Client.Close` calls threaded through the state;
each call carries the outcomes of the session close and connection close it
would perform. -/
def ehCloseSeq (s : EhState) : List (Option String × Option String) →
    List (Option String × EhCloseEffects) × EhState
  | [] => ([], s)
  | p :: rest =>
    let r := ehClose s p.1 p.2
    let rs := ehCloseSeq r.2.1 rest
    ((r.1, r.2.2) :: rs.1, rs.2)

/-- A device-to-cloud message (`common.Message`) as `SendEvent` builds it:
the payload bytes plus the fields the send options may set. -/
structure CMsg where
  payload : List Nat
  messageID : String
  correlationID : String
  properties : List (String × String)
  qos : Option Nat
  deriving DecidableEq, Repr

/-- A send option (`SendOption`): mutates the outgoing message or fails. -/
def SendOpt : Type := CMsg → Except String CMsg

/-- Apply the send options in order, stopping at the first failure —
the loop of src/eventhub/client.go:600-604. -/
def applyOpts : List SendOpt → CMsg → Except String CMsg
  | [], m => Except.ok m
  | opt :: rest, m =>
    match opt m with
    | Except.error e => Except.error e
    | Except.ok m2 => applyOpts rest m2

/-- Embedding of `SendEvent` (src/eventhub/client.go:592-610): gate on `checkConnection`;
reject a nil payload (`payload == nil`, the Go nil slice, modelled as
`none`); apply the options; hand the message to the transport and return its
outcome (`trSend`).  The outer `none` means the gate blocked/the pick was
not enabled; the inner `Option String` is the call's returned error. -/
def sendEvent (s : DevState) (ctxCancelled : Bool) (pick : Branch)
    (payload : Option (List Nat)) (opts : List SendOpt) (trSend : Option String) :
    Option (Option String) :=
  match checkConnection s ctxCancelled pick with
  | none => none
  | some (Except.error e) => some (some e)
  | some (Except.ok _) =>
    match payload with
    | none => some (some "payload is nil")
    | some p =>
      let base : CMsg :=
        { payload := p, messageID := "", correlationID := "", properties := [], qos := none }
      match applyOpts opts base with
      | Except.error e => some (some e)
      | Except.ok _ => some trSend

/-- Embedding of `SubscribeEvents` (src/eventhub/client.go:435-445): gate on
`checkConnection`, run the events multiplexer's one-time setup (`onceErr`
is its outcome), and return a subscription handle (abstracted to `Unit`). -/
def subscribeEvents (s : DevState) (ctxCancelled : Bool) (pick : Branch)
    (onceErr : Option String) : Option (Except String Unit) :=
  match checkConnection s ctxCancelled pick with
  | none => none
  | some (Except.error e) => some (Except.error e)
  | some (Except.ok _) =>
    match onceErr with
    | some e => some (Except.error e)
    | none => some (Except.ok ())

/-- Embedding of `RegisterMethod` (src/eventhub/client.go:456-469): gate on
`checkConnection`, reject a blank name, run the method multiplexer's
one-time setup, then register the handler (`handleErr` is the outcome of
`dmMux.handle`, an error on duplicate registration). -/
def registerMethod (s : DevState) (ctxCancelled : Bool) (pick : Branch)
    (name : String) (onceErr handleErr : Option String) : Option (Option String) :=
  match checkConnection s ctxCancelled pick with
  | none => none
  | some (Except.error e) => some (some e)
  | some (Except.ok _) =>
    if name = "" then some (some "name cannot be blank")
    else
      match onceErr with
      | some e => some (some e)
      | none => some handleErr

/-- JSON values as Go's `encoding/json` decodes them into `interface{}`,
restricted to the shapes `TwinState` inspects: numbers (`float64`; every
number produced by JSON decoding is rational), strings, booleans, null, and
a catch-all for arrays/objects. -/
inductive JVal where
  | jnum (q : Rat)
  | jstr (s : String)
  | jbool (b : Bool)
  | jnull
  | jother
  deriving DecidableEq, Repr

/-- Embedding of `TwinState` (src/eventhub/client.go:477): a string-keyed document. -/
def TwinState : Type := List (String × JVal)

/-- Lookup `m[k]` on a twin document. -/
def twinLookup (s : TwinState) (k : String) : Option JVal :=
  (s.find? (fun p => p.1 = k)).map Prod.snd

/-- Go's `int(v)` conversion of a `float64`: truncation toward zero.  A
normalized `Rat` has a positive denominator, and `Int.tdiv` is T-division
(rounding toward zero), so this is `Int.tdiv num den`. -/
def ratTrunc (q : Rat) : Int :=
  (q.num).tdiv (q.den : Int)

/-- Embedding of `TwinState.Version` (src/eventhub/client.go:480-483): type-assert the
`$version` entry to a number (`float64`); the assertion's zero value is used
when the key is absent or holds another type; convert to `int`. -/
def Version (s : TwinState) : Int :=
  match twinLookup s "$version" with
  | some (JVal.jnum q) => ratTrunc q
  | _ => 0

/-- Embedding of `RetrieveTwinState` (src/eventhub/client.go:486-502): gate on
`checkConnection`, then retrieve the raw twin document from the transport
and JSON-decode its `desired`/`reported` sections; both external steps are
modelled by their combined outcome `fetched`. -/
def retrieveTwinState (s : DevState) (ctxCancelled : Bool) (pick : Branch)
    (fetched : Except String (TwinState × TwinState)) :
    Option (Except String (TwinState × TwinState)) :=
  match checkConnection s ctxCancelled pick with
  | none => none
  | some (Except.error e) => some (Except.error e)
  | some (Except.ok _) => some fetched

/-- Embedding of `UpdateTwinState` (src/eventhub/client.go:506-515): gate on
`checkConnection`, JSON-encode the state (`marshalErr`), and return the
transport's new-version result (`trResult`). -/
def updateTwinState (s : DevState) (ctxCancelled : Bool) (pick : Branch)
    (marshalErr : Option String) (trResult : Except String Int) :
    Option (Except String Int) :=
  match checkConnection s ctxCancelled pick with
  | none => none
  | some (Except.error e) => some (Except.error e)
  | some (Except.ok _) =>
    match marshalErr with
    | some e => some (Except.error e)
    | none => some trResult

/-- Embedding of `SubscribeTwinUpdates` (src/eventhub/client.go:518-528): gate on
`checkConnection`, run the twin-state multiplexer's one-time setup, and
return a subscription handle (abstracted to `Unit`). -/
def subscribeTwinUpdates (s : DevState) (ctxCancelled : Bool) (pick : Branch)
    (onceErr : Option String) : Option (Except String Unit) :=
  match checkConnection s ctxCancelled pick with
  | none => none
  | some (Except.error e) => some (Except.error e)
  | some (Except.ok _) =>
    match onceErr with
    | some e => some (Except.error e)
    | none => some (Except.ok ())

/-! ### Theorems -/

/-- Once `done` is closed, every further `iotdevice.Close` call returns
`nil` and performs no side effect. -/
lemma devCloseSeq_after (s : DevState) (hs : s.done = true) :
    ∀ l, (devCloseSeq s l).1 = l.map (fun _ => (none, devNoEffects)) := by
  intro l
  induction l with
  | nil => rfl
  | cons tr rest ih =>
    simp only [devCloseSeq, devClose, hs, if_pos, List.map_cons]
    exact congrArg _ ih

/-- Once `done` is closed, every further `eventhub.Close` call returns `nil`
and performs no side effect. -/
lemma ehCloseSeq_after (s : EhState) (hs : s.done = true) :
    ∀ l, (ehCloseSeq s l).1 = l.map (fun _ => (none, ehNoEffects)) := by
  intro l
  induction l with
  | nil => rfl
  | cons p rest ih =>
    simp only [ehCloseSeq, ehClose, hs, if_pos, List.map_cons]
    exact congrArg _ ih

/-- A run of nil/no-effect close results contains no teardown. -/
lemma countP_map_none_dev (l : List (Option String)) :
    ((l.map (fun _ => ((none : Option String), devNoEffects))).countP
      (fun q => decide (q.2 = devTeardownEffects))) = 0 := by
  induction l with
  | nil => rfl
  | cons a rest ih => simp [List.countP_cons, devNoEffects, devTeardownEffects, ih]

/-- A run of nil/no-effect eventhub close results contains no teardown. -/
lemma countP_map_none_eh (l : List (Option String × Option String)) :
    ((l.map (fun _ => ((none : Option String), ehNoEffects))).countP
      (fun q => decide (q.2.sessClosed = true))) = 0 := by
  induction l with
  | nil => rfl
  | cons a rest ih => simp [List.countP_cons, ehNoEffects, ih]

/-- C3: `Connect` is single-shot: while the client is already Ready a second
`Connect` fails with the already-connected error and leaves the state
unchanged; a `Connect` whose transport connect fails returns that error and
leaves the state Unready, so a subsequent `Connect` (here: one whose
transport connect succeeds) is permitted to retry and become Ready. -/
theorem connect_single_shot (s t : DevState) (e : String)
    (hs : s.ready = true) (ht : t.ready = false) :
    (∀ trErr, connect s trErr = (some "already connected", s)) ∧
    connect t (some e) = (some e, t) ∧
    (connect t (some e)).2.ready = false ∧
    connect t none = (none, { t with ready := true }) ∧
    (connect t none).2.ready = true := by
  refine ⟨fun trErr => ?_, ?_, ?_, ?_, ?_⟩ <;>
    simp [connect, hs, ht]

/-- C3 witness: a Ready client rejects a second `Connect`; a failed connect
leaves a fresh client Unready and a retry succeeds. -/
theorem connect_single_shot_witness :
    connect ⟨true, false⟩ none = (some "already connected", ⟨true, false⟩) ∧
    connect devInit (some "dial tcp: refused") =
      (some "dial tcp: refused", devInit) ∧
    connect devInit none = (none, ⟨true, false⟩) := by
  refine ⟨(connect_single_shot ⟨true, false⟩ devInit "dial tcp: refused" rfl rfl).1 none,
    (connect_single_shot ⟨true, false⟩ devInit "dial tcp: refused" rfl rfl).2.1, ?_⟩
  exact (connect_single_shot ⟨true, false⟩ devInit "dial tcp: refused" rfl rfl).2.2.2.1

/-- C4: `Close` is idempotent on both clients: across any non-empty sequence
of `Close` calls starting from a not-yet-closed client, the first call
performs the teardown (broadcasting the closed error to the events and
twin-state multiplexers and closing the transport on the iotdevice client;
closing the session and then the connection on the eventhub client) and
returns that teardown's outcome, every subsequent call returns `nil` with no
side effects, and exactly one call executes a teardown. -/
theorem close_idempotent (s : DevState) (es : EhState) (trErr : Option String)
    (rest : List (Option String)) (p : Option String × Option String)
    (erest : List (Option String × Option String))
    (hs : s.done = false) (hes : es.done = false) :
    (devCloseSeq s (trErr :: rest)).1 =
      (trErr, devTeardownEffects) :: rest.map (fun _ => (none, devNoEffects)) ∧
    ((devCloseSeq s (trErr :: rest)).1.countP
      (fun q => decide (q.2 = devTeardownEffects))) = 1 ∧
    (ehCloseSeq es (p :: erest)).1 =
      (p.1.or p.2, ⟨true, p.1.isNone⟩) :: erest.map (fun _ => (none, ehNoEffects)) ∧
    ((ehCloseSeq es (p :: erest)).1.countP
      (fun q => decide (q.2.sessClosed = true))) = 1 := by
  have hdev : (devCloseSeq s (trErr :: rest)).1 =
      (trErr, devTeardownEffects) :: rest.map (fun _ => (none, devNoEffects)) := by
    simp only [devCloseSeq, devClose, hs]
    exact congrArg _ (devCloseSeq_after _ rfl rest)
  have heh : (ehCloseSeq es (p :: erest)).1 =
      (p.1.or p.2, ⟨true, p.1.isNone⟩) :: erest.map (fun _ => (none, ehNoEffects)) := by
    rcases p with ⟨sessErr, connErr⟩
    cases sessErr <;>
      · simp only [ehCloseSeq, ehClose, hes, Option.or, Option.isNone]
        exact congrArg _ (ehCloseSeq_after _ rfl erest)
  refine ⟨hdev, ?_, heh, ?_⟩
  · rw [hdev]
    simp [List.countP_cons, countP_map_none_dev, devNoEffects, devTeardownEffects]
  · rw [heh]
    simp [List.countP_cons, countP_map_none_eh, ehNoEffects]

/-- C4 witness: three `Close` calls on each fresh client — the first tears
down, the second and third return `nil` with no effects. -/
theorem close_idempotent_witness :
    (devCloseSeq devInit [none, none, some "x"]).1 =
      [(none, devTeardownEffects), (none, devNoEffects), (none, devNoEffects)] ∧
    (ehCloseSeq ⟨false⟩ [(none, none), (none, none), (some "y", none)]).1 =
      [(none, ⟨true, true⟩), (none, ehNoEffects), (none, ehNoEffects)] := by
  have h := close_idempotent devInit ⟨false⟩ none [none, some "x"] (none, none)
    [(none, none), (some "y", none)] rfl rfl
  exact ⟨h.1, h.2.2.1⟩

/-- C1 counterexample: the claim fails as stated.  A client that became
Ready and was then closed (`Connect` succeeded, then `Close` returned, so
both channels are closed) still has the `ready` branch of `checkConnection`'s
select enabled; when the select race resolves it, `SendEvent` invoked after
`Close()` proceeds all the way to the transport and returns `nil`, not the
Closed error. -/
theorem c1_closed_gate_counterexample :
    (devClose (connect devInit none).2 none).2.1 = ⟨true, true⟩ ∧
    (⟨true, true⟩ : DevState).done = true ∧
    branchEnabled ⟨true, true⟩ false Branch.ready = true ∧
    sendEvent ⟨true, true⟩ false Branch.ready (some [1]) [] none = some none ∧
    some (none : Option String) ≠ some (some errClosed) := by
  refine ⟨rfl, rfl, rfl, rfl, ?_⟩
  simp [errClosed]

/-- C1 (amended): after `Close()` has returned, every data-plane operation
(`SendEvent`, `SubscribeEvents`, `RegisterMethod`, `RetrieveTwinState`,
`UpdateTwinState`, `SubscribeTwinUpdates`) returns the Closed error provided
the client never became Ready and its context is not cancelled (when the
client was Ready before Close, the select race may instead resolve the still
enabled ready branch and the operation proceeds); before Ready and before
Close, a cancelled context makes every data-plane operation fail with the
caller's context error. -/
theorem checkConnection_gate (s t : DevState) (pick pick2 : Branch)
    (hs1 : s.done = true) (hs2 : s.ready = false)
    (hp : branchEnabled s false pick = true)
    (ht1 : t.ready = false) (ht2 : t.done = false)
    (hp2 : branchEnabled t true pick2 = true) :
    (∀ payload opts trSend,
      sendEvent s false pick payload opts trSend = some (some errClosed)) ∧
    (∀ onceErr, subscribeEvents s false pick onceErr = some (Except.error errClosed)) ∧
    (∀ name onceErr handleErr,
      registerMethod s false pick name onceErr handleErr = some (some errClosed)) ∧
    (∀ fetched, retrieveTwinState s false pick fetched = some (Except.error errClosed)) ∧
    (∀ marshalErr trResult,
      updateTwinState s false pick marshalErr trResult = some (Except.error errClosed)) ∧
    (∀ onceErr, subscribeTwinUpdates s false pick onceErr = some (Except.error errClosed)) ∧
    (∀ payload opts trSend,
      sendEvent t true pick2 payload opts trSend = some (some ctxCanceled)) ∧
    (∀ onceErr, subscribeEvents t true pick2 onceErr = some (Except.error ctxCanceled)) ∧
    (∀ name onceErr handleErr,
      registerMethod t true pick2 name onceErr handleErr = some (some ctxCanceled)) ∧
    (∀ fetched, retrieveTwinState t true pick2 fetched = some (Except.error ctxCanceled)) ∧
    (∀ marshalErr trResult,
      updateTwinState t true pick2 marshalErr trResult = some (Except.error ctxCanceled)) ∧
    (∀ onceErr, subscribeTwinUpdates t true pick2 onceErr = some (Except.error ctxCanceled)) := by
  have hpick : pick = Branch.done := by
    cases pick with
    | ready => rw [branchEnabled, hs2] at hp; exact absurd hp (by simp)
    | done => rfl
    | ctxDone => rw [branchEnabled] at hp; exact absurd hp (by simp)
  have hpick2 : pick2 = Branch.ctxDone := by
    cases pick2 with
    | ready => rw [branchEnabled, ht1] at hp2; exact absurd hp2 (by simp)
    | done => rw [branchEnabled, ht2] at hp2; exact absurd hp2 (by simp)
    | ctxDone => rfl
  subst hpick hpick2
  refine ⟨fun _ _ _ => ?_, fun _ => ?_, fun _ _ _ => ?_, fun _ => ?_, fun _ _ => ?_,
    fun _ => ?_, fun _ _ _ => ?_, fun _ => ?_, fun _ _ _ => ?_, fun _ => ?_,
    fun _ _ => ?_, fun _ => ?_⟩ <;>
  simp [sendEvent, subscribeEvents, registerMethod, retrieveTwinState, updateTwinState,
    subscribeTwinUpdates, checkConnection, branchEnabled, hs1]

/-- C1 (amended) witness: on a never-Ready closed client the select's only
enabled branch is `done` and `SendEvent` returns the Closed error; on a fresh
client with a cancelled context it returns the context error. -/
theorem checkConnection_gate_witness :
    sendEvent ⟨false, true⟩ false Branch.done (some [1]) [] none =
      some (some errClosed) ∧
    sendEvent devInit true Branch.ctxDone (some [1]) [] none =
      some (some ctxCanceled) := by
  have h := checkConnection_gate ⟨false, true⟩ devInit Branch.done Branch.ctxDone
    rfl rfl rfl rfl rfl rfl
  exact ⟨h.1 (some [1]) [] none, h.2.2.2.2.2.2.1 (some [1]) [] none⟩

/-- C9 counterexample: the claim fails as stated.  On a Ready, non-Closed
client, `SendEvent` with an empty but non-nil payload (Go `[]byte{}`, here
`some []`) does not return an error: the nil check passes it and the
transport's successful result is returned. -/
theorem c9_empty_payload_counterexample :
    branchEnabled ⟨true, false⟩ false Branch.ready = true ∧
    sendEvent ⟨true, false⟩ false Branch.ready (some []) [] none = some none ∧
    ∀ e : String, some (none : Option String) ≠ some (some e) := by
  refine ⟨rfl, rfl, fun e => ?_⟩
  simp

/-- C9 (amended): on a Ready, non-Closed client (with the select resolving
the ready branch), `SendEvent` returns an error exactly when the payload is
the nil slice; with any non-nil payload — even the empty one — and no send
options it forwards the message to the transport and returns the transport's
result. -/
theorem sendEvent_payload (s : DevState) (pick : Branch)
    (h1 : s.ready = true) (h2 : s.done = false)
    (hp : branchEnabled s false pick = true) :
    (∀ opts trSend, sendEvent s false pick none opts trSend =
      some (some "payload is nil")) ∧
    (∀ l trSend, sendEvent s false pick (some l) [] trSend = some trSend) := by
  have hpick : pick = Branch.ready := by
    cases pick with
    | ready => rfl
    | done => rw [branchEnabled, h2] at hp; exact absurd hp (by simp)
    | ctxDone => rw [branchEnabled] at hp; exact absurd hp (by simp)
  subst hpick
  refine ⟨fun opts trSend => ?_, fun l trSend => ?_⟩ <;>
    simp [sendEvent, checkConnection, branchEnabled, h1, applyOpts]

/-- C9 (amended) witness: a Ready client rejects the nil payload and forwards
a non-empty payload, returning the transport's (successful) result. -/
theorem sendEvent_payload_witness :
    sendEvent ⟨true, false⟩ false Branch.ready none [] none =
      some (some "payload is nil") ∧
    sendEvent ⟨true, false⟩ false Branch.ready (some [7, 8]) [] none = some none := by
  have h := sendEvent_payload ⟨true, false⟩ Branch.ready rfl rfl rfl
  exact ⟨h.1 [] none, h.2 [7, 8] none⟩

/-- C10: `TwinState.Version` is total over arbitrary twin documents: it
returns the `$version` entry converted from its `float64` value to `int`
(truncation toward zero), and `0` when the key is absent or its value is not
a JSON number. -/
theorem version_total (s : TwinState) :
    (∀ q, twinLookup s "$version" = some (JVal.jnum q) → Version s = ratTrunc q) ∧
    (twinLookup s "$version" = none → Version s = 0) ∧
    (∀ v, twinLookup s "$version" = some v → (∀ q, v ≠ JVal.jnum q) →
      Version s = 0) := by
  refine ⟨fun q hq => ?_, fun h => ?_, fun v hv hnum => ?_⟩
  · rw [Version, hq]
  · rw [Version, h]
  · rw [Version, hv]
    cases v with
    | jnum q => exact absurd rfl (hnum q)
    | jstr s => rfl
    | jbool b => rfl
    | jnull => rfl
    | jother => rfl

/-- C10 witness: a document at version 4 reports 4; a document whose
`$version` holds the negative fractional number -3.5 reports -3 (Go's
`int(-3.5)`, truncation toward zero, not -4); a document whose `$version`
holds a string, and one missing the key, both report 0. -/
theorem version_total_witness :
    Version [("$version", JVal.jnum 4), ("temp", JVal.jnum 21)] = 4 ∧
    Version [("$version", JVal.jnum (-7 / 2))] = -3 ∧
    Version [("$version", JVal.jstr "4")] = 0 ∧
    Version [("temp", JVal.jnum 21)] = 0 := by
  refine ⟨?_, ?_, ?_, ?_⟩
  · have h := (version_total [("$version", JVal.jnum 4), ("temp", JVal.jnum 21)]).1 4 rfl
    rw [h]; rfl
  · have h := (version_total [("$version", JVal.jnum (-7 / 2))]).1 (-7 / 2) rfl
    rw [h]
    norm_num [ratTrunc]
    decide
  · exact (version_total [("$version", JVal.jstr "4")]).2.2 (JVal.jstr "4") rfl
      (fun q => by simp)
  · exact (version_total [("temp", JVal.jnum 21)]).2.1 rfl

/-- C6: with the CBS links and send succeeding and a response received,
`PutToken` returns `nil` exactly on a status-code 200 response, and on any
other status code returns an error containing that broker-supplied code and
the broker-supplied description. -/
theorem putToken_status (w : LinkWorld) (msg : Message) (rc : Int)
    (h1 : w.sendLinkErr = none) (h2 : w.recvLinkErr = none) (h3 : w.sendErr = none)
    (h4 : w.recvResult = Except.ok msg)
    (h5 : lookupProp msg.appProps "status-code" = some (AVal.vint32 rc)) :
    (rc = 200 → PutToken w = Except.ok ()) ∧
    (rc ≠ 200 → ∃ err, PutToken w = Except.error err ∧
      ContainsStr err (toString rc) ∧
      ContainsStr err (quoteDescription (lookupProp msg.appProps "status-description"))) := by
  have hcheck : CheckMessageResponse msg =
      if rc = 200 then Except.ok ()
      else Except.error ("code = " ++ toString rc ++ ", description = " ++
        quoteDescription (lookupProp msg.appProps "status-description")) := by
    simp only [CheckMessageResponse]
    rw [h5]
  constructor
  · intro hrc
    simp [PutToken, h1, h2, h3, h4, hcheck, hrc]
  · intro hrc
    refine ⟨"code = " ++ toString rc ++ ", description = " ++
      quoteDescription (lookupProp msg.appProps "status-description"), ?_, ?_, ?_⟩
    · simp [PutToken, h1, h2, h3, h4, hcheck, hrc]
    · exact ⟨"code = ", ", description = " ++
        quoteDescription (lookupProp msg.appProps "status-description"),
        by simp [String.append_assoc]⟩
    · exact ⟨"code = " ++ toString rc ++ ", description = ", "",
        by simp [String.append_assoc]⟩

/-- C6 witness: a 404 response with description "not found" yields an error
containing "404" and the quoted description; a 200 response yields `nil`. -/
theorem putToken_status_witness :
    (∃ err, PutToken ⟨none, none, none, Except.ok
        ⟨none, ⟨"m", none, "", ""⟩, [("status-code", AVal.vint32 404),
          ("status-description", AVal.vstr "not found")]⟩⟩ = Except.error err ∧
      ContainsStr err (toString (404 : Int)) ∧
      ContainsStr err "\"not found\"") ∧
    PutToken ⟨none, none, none, Except.ok
        ⟨none, ⟨"m", none, "", ""⟩, [("status-code", AVal.vint32 200)]⟩⟩ =
      Except.ok () := by
  constructor
  · exact (putToken_status
      ⟨none, none, none, Except.ok ⟨none, ⟨"m", none, "", ""⟩,
        [("status-code", AVal.vint32 404),
          ("status-description", AVal.vstr "not found")]⟩⟩
      ⟨none, ⟨"m", none, "", ""⟩, [("status-code", AVal.vint32 404),
        ("status-description", AVal.vstr "not found")]⟩
      404 rfl rfl rfl rfl rfl).2 (by decide)
  · exact (putToken_status
      ⟨none, none, none, Except.ok ⟨none, ⟨"m", none, "", ""⟩,
        [("status-code", AVal.vint32 200)]⟩⟩
      ⟨none, ⟨"m", none, "", ""⟩, [("status-code", AVal.vint32 200)]⟩
      200 rfl rfl rfl rfl rfl).1 rfl

/-- C7: `PutTokenContinuously` returns exactly the outcome of the first
blocking handshake (an error iff that handshake failed) and launches the
background renewal loop iff it succeeded; a renewal failure in the loop is
only written to the log, terminates the loop there, and the events after it
are never processed — it cannot reach the caller, whose result was already
fixed by the first handshake. -/
theorem putTokenContinuously_seed (first : Except String Unit) (e : String)
    (pre post : List RenewEvent)
    (hpre : ∀ ev ∈ pre, ev = RenewEvent.tick none) :
    (PutTokenContinuously first).1 = first ∧
    ((PutTokenContinuously first).2 = true ↔ first = Except.ok ()) ∧
    renewLoop (pre ++ RenewEvent.tick (some e) :: post) = ["put token error: " ++ e] := by
  refine ⟨?_, ?_, ?_⟩
  · cases first <;> rfl
  · cases first <;> simp [PutTokenContinuously]
  · induction pre with
    | nil => rfl
    | cons ev rest ih =>
      have hev : ev = RenewEvent.tick none := hpre ev (List.mem_cons_self ev rest)
      subst hev
      rw [List.cons_append, renewLoop]
      exact ih (fun x hx => hpre x (List.mem_cons_of_mem _ hx))

/-- C7 witness: a successful seed handshake returns `nil` and starts the
loop; after one successful renewal a failing renewal is logged and the loop
stops, ignoring later events. -/
theorem putTokenContinuously_seed_witness :
    (PutTokenContinuously (Except.ok ())).1 = Except.ok () ∧
    renewLoop [RenewEvent.tick none, RenewEvent.tick (some "expired"),
      RenewEvent.tick none] = ["put token error: expired"] := by
  have h := putTokenContinuously_seed (Except.ok ()) "expired"
    [RenewEvent.tick none] [RenewEvent.tick none] (by simp)
  exact ⟨h.1, h.2.2⟩

/-- Lemma: `CheckMessageResponse` succeeds only on a response whose `status-code`
application property is the `int32` 200. -/
lemma checkMessageResponse_ok (msg : Message)
    (h : CheckMessageResponse msg = Except.ok ()) :
    lookupProp msg.appProps "status-code" = some (AVal.vint32 200) := by
  cases hl : lookupProp msg.appProps "status-code" with
  | none => simp [CheckMessageResponse, hl] at h
  | some v =>
    cases v with
    | vint32 rc =>
      by_cases hrc : rc = 200
      · rw [hrc]
      · simp [CheckMessageResponse, hl, hrc] at h
    | vstr s => simp [CheckMessageResponse, hl] at h
    | vstrList l => simp [CheckMessageResponse, hl] at h
    | vmap m => simp [CheckMessageResponse, hl] at h
    | vother => simp [CheckMessageResponse, hl] at h

/-- C8: partition discovery sends a management request carrying the
generated correlation identifier; with the links and send succeeding and a
response received, a non-200 status code yields an error carrying the
broker's code and description, a 200 response that does not echo the
identifier yields the protocol error `message-id mismatch`, and a
partition-identifier list is produced only from a 200 response echoing the
identifier. -/
theorem getPartitionIDs_protocol (w : LinkWorld) (msg : Message)
    (msgID replyTo name : String)
    (h1 : w.recvLinkErr = none) (h2 : w.sendLinkErr = none) (h3 : w.sendErr = none)
    (h4 : w.recvResult = Except.ok msg) :
    (mgmtRequest msgID replyTo name).props.messageID = msgID ∧
    (∀ rc, lookupProp msg.appProps "status-code" = some (AVal.vint32 rc) →
      rc ≠ 200 → ∃ err, getPartitionIDs w msgID = Except.error err ∧
        ContainsStr err (toString rc) ∧
        ContainsStr err (quoteDescription (lookupProp msg.appProps "status-description"))) ∧
    (CheckMessageResponse msg = Except.ok () →
      corrEq msg.props.correlationID msgID = false →
      getPartitionIDs w msgID = Except.error "message-id mismatch") ∧
    (∀ ids, getPartitionIDs w msgID = Except.ok ids →
      lookupProp msg.appProps "status-code" = some (AVal.vint32 200) ∧
      corrEq msg.props.correlationID msgID = true) := by
  refine ⟨rfl, fun rc h5 hrc => ?_, fun hok hcorr => ?_, fun ids hids => ?_⟩
  · have hcheck : CheckMessageResponse msg =
        Except.error ("code = " ++ toString rc ++ ", description = " ++
          quoteDescription (lookupProp msg.appProps "status-description")) := by
      simp only [CheckMessageResponse]
      rw [h5]
      simp [hrc]
    refine ⟨"code = " ++ toString rc ++ ", description = " ++
      quoteDescription (lookupProp msg.appProps "status-description"), ?_, ?_, ?_⟩
    · simp [getPartitionIDs, h1, h2, h3, h4, hcheck]
    · exact ⟨"code = ", ", description = " ++
        quoteDescription (lookupProp msg.appProps "status-description"),
        by simp [String.append_assoc]⟩
    · exact ⟨"code = " ++ toString rc ++ ", description = ", "",
        by simp [String.append_assoc]⟩
  · simp [getPartitionIDs, h1, h2, h3, h4, hok, hcorr]
  · cases hch : CheckMessageResponse msg with
    | error e => simp [getPartitionIDs, h1, h2, h3, h4, hch] at hids
    | ok u =>
      refine ⟨checkMessageResponse_ok msg (by rw [hch]), ?_⟩
      by_contra hc
      rw [Bool.not_eq_true] at hc
      simp [getPartitionIDs, h1, h2, h3, h4, hch, hc] at hids

/-- C8 witness: a 200 response carrying a wrong correlation identifier is
rejected with the protocol error; a 200 response echoing the identifier
yields the partition-identifier list. -/
theorem getPartitionIDs_protocol_witness :
    getPartitionIDs ⟨none, none, none, Except.ok
        ⟨some (AVal.vmap [("partition_ids", AVal.vstrList ["0", "1"])]),
          ⟨"r", some (AVal.vstr "other"), "", ""⟩,
          [("status-code", AVal.vint32 200)]⟩⟩ "m" =
      Except.error "message-id mismatch" := by
  exact (getPartitionIDs_protocol
    ⟨none, none, none, Except.ok
        ⟨some (AVal.vmap [("partition_ids", AVal.vstrList ["0", "1"])]),
          ⟨"r", some (AVal.vstr "other"), "", ""⟩,
          [("status-code", AVal.vint32 200)]⟩⟩
    ⟨some (AVal.vmap [("partition_ids", AVal.vstrList ["0", "1"])]),
      ⟨"r", some (AVal.vstr "other"), "", ""⟩,
      [("status-code", AVal.vint32 200)]⟩
    "m" "r" "telemetry" rfl rfl rfl rfl).2.2.1 rfl rfl

/-- The select loop returns the first error in resolve order, having
dispatched exactly the messages resolved before it. -/
lemma fanInLoop_first_err (pre : List FanEvent) (e : String) (post : List FanEvent)
    (hpre : ∀ ev ∈ pre, ∃ m, ev = FanEvent.msg m) :
    fanInLoop (pre ++ FanEvent.err e :: post) = some (e, msgsOf pre) := by
  induction pre with
  | nil => rfl
  | cons ev rest ih =>
    obtain ⟨m, hm⟩ := hpre ev (List.mem_cons_self ev rest)
    subst hm
    rw [List.cons_append, fanInLoop, ih (fun x hx => hpre x (List.mem_cons_of_mem _ hx)),
      msgsOf]

/-- C2: for a `SubscribePartitions` call with at least one discovered
partition, when a partition receiver yields an error the call returns that
(first) error; the messages delivered to the callback are exactly those the
select resolved before the error, so nothing resolved after it — including
messages already buffered from other partitions — is ever delivered; the
shared cancellation scope is cancelled on return, and a receive loop that
observes the cancellation exits by pushing its single context error without
delivering any further message. -/
theorem subscribePartitions_first_error (ids : List String)
    (pre post : List FanEvent) (e : String)
    (hids : ids ≠ []) (hpre : ∀ ev ∈ pre, ∃ m, ev = FanEvent.msg m) :
    SubscribePartitions (Except.ok ids) (pre ++ FanEvent.err e :: post) =
      some ⟨e, msgsOf pre, true⟩ ∧
    (∀ stream, receiverLoop true stream = ([], some ctxCanceled)) := by
  constructor
  · cases ids with
    | nil => exact absurd rfl hids
    | cons a l =>
      simp [SubscribePartitions, fanInLoop_first_err pre e post hpre]
  · intro stream
    rfl

/-- C2 witness: the spec's scenario — partitions "0" and "1", partition "0"
yields M1 then error E while a message from partition "1" sits buffered:
the call returns E having delivered only M1, the scope is cancelled, and a
cancelled receiver delivers nothing further. -/
theorem subscribePartitions_first_error_witness :
    SubscribePartitions (Except.ok ["0", "1"])
        [FanEvent.msg ⟨"M1"⟩, FanEvent.err "E", FanEvent.msg ⟨"M2"⟩] =
      some ⟨"E", [⟨"M1"⟩], true⟩ ∧
    receiverLoop true [Except.ok ⟨"M2"⟩] = ([], some ctxCanceled) := by
  have h := subscribePartitions_first_error ["0", "1"] [FanEvent.msg ⟨"M1"⟩]
    [FanEvent.msg ⟨"M2"⟩] "E" (by simp)
    (fun ev hev => by
      simp only [List.mem_singleton] at hev
      exact ⟨⟨"M1"⟩, hev⟩)
  exact ⟨h.1, h.2 [Except.ok ⟨"M2"⟩]⟩

/-- The spec's delivery window for the fan-in consumer (spec.md sections 4.3
and 8), stated from the spec's words for comparison with the code's filter:
a message is delivered iff its broker enqueue time is at or after the
call's start time. -/
def specEnqueuedWindow (startMs enqMs : Int) : Bool :=
  startMs ≤ enqMs

/-- C5 counterexample: the claim fails as stated.  The receiver opened for
partition "0" filters on enqueue time strictly greater than the call's start
time, so a message enqueued exactly at the start time is excluded by the
code's filter although the claimed at-or-after window includes it. -/
theorem c5_at_or_after_counterexample :
    mkReceivers "telemetry" "$Default" ["0"] 0 =
      [⟨"/telemetry/ConsumerGroups/$Default/Partitions/0", 0⟩] ∧
    enqueuedTimeFilter 0 0 = false ∧
    specEnqueuedWindow 0 0 = true := by
  exact ⟨rfl, rfl, rfl⟩

/-- C5 (amended): every receiver a fan-in consumer call opens carries the
call's start time in its selector filter, and that filter delivers exactly
the messages enqueued strictly after the start time — in particular it never
delivers a message enqueued strictly before the start time (nor one enqueued
exactly at it). -/
theorem receivers_filter_strict (name group : String) (ids : List String)
    (startMs : Int) (cfg : ReceiverConfig)
    (hcfg : cfg ∈ mkReceivers name group ids startMs) :
    cfg.filterStartMs = startMs ∧
    (∀ enqMs, enqMs < startMs → enqueuedTimeFilter cfg.filterStartMs enqMs = false) ∧
    (∀ enqMs, enqueuedTimeFilter cfg.filterStartMs enqMs = true ↔ startMs < enqMs) := by
  obtain ⟨id, hid, heq⟩ := List.mem_map.mp hcfg
  subst heq
  refine ⟨rfl, fun enqMs h => ?_, fun enqMs => ?_⟩
  · simp only [enqueuedTimeFilter, decide_eq_false_iff_not]
    omega
  · simp [enqueuedTimeFilter]

/-- C5 (amended) witness: a consumer started at time 5 configures the
partition-"0" receiver with filter start 5 and never delivers a message
enqueued at time 3. -/
theorem receivers_filter_strict_witness :
    (⟨partitionAddress "telemetry" "$Default" "0", 5⟩ : ReceiverConfig).filterStartMs
      = 5 ∧
    enqueuedTimeFilter
      (⟨partitionAddress "telemetry" "$Default" "0", 5⟩ : ReceiverConfig).filterStartMs
      3 = false := by
  have h := receivers_filter_strict "telemetry" "$Default" ["0"] 5
    ⟨partitionAddress "telemetry" "$Default" "0", 5⟩
    (by simp [mkReceivers])
  exact ⟨h.1, h.2.1 3 (by decide)⟩

end IotHub
